/-
Verification of the ColoringBook web app's core logic against its
specification.  The TypeScript sources (`App.tsx`, `services/geminiService.ts`,
`types.ts`) are shallowly embedded below: strings are `String`/`List Char`,
the JavaScript regular-expression used by `parseMultiPrompts` is embedded as a
small greedy backtracking matcher over the fixed pattern
`\d+\.\s*.*[\r\n]+[“"]([^”"]+)[”"]`, the Gemini network API is an oracle
function parameter, and React state updates are explicit state passing with an
event trace recording progress reports and issued network calls.
-/
import Mathlib

set_option maxHeartbeats 1000000
set_option maxRecDepth 10000

/-! ## JavaScript character classes and string primitives -/

/-- JavaScript whitespace (the class `\s`, also used by `String.prototype.trim`):
WhiteSpace ∪ LineTerminator code points. -/
def isJsSpace (c : Char) : Bool :=
  c = ' ' || c = '\t' || c = '\n' || c = '\r' ||
  c = '\x0b' || c = '\x0c' || c = ' ' || c = ' ' ||
  (' ' ≤ c && c ≤ ' ') || c = ' ' || c = ' ' ||
  c = ' ' || c = ' ' || c = '　' || c = '﻿'

/-- JavaScript line terminators, the characters NOT matched by `.` without the
`s` flag. -/
def isLineTerm (c : Char) : Bool :=
  c = '\n' || c = '\r' || c = ' ' || c = ' '

/-- The class matched by `.` (no dotAll flag). -/
def isDotChar (c : Char) : Bool := !(isLineTerm c)

/-- The class `[\r\n]`. -/
def isCRLF (c : Char) : Bool := c = '\r' || c = '\n'

/-- The class `[“"]` (opening quote of the multi-prompt pattern). -/
def isOpenQuote (c : Char) : Bool := c = '“' || c = '"'

/-- The class `[”"]` (closing quote of the multi-prompt pattern). -/
def isCloseQuote (c : Char) : Bool := c = '”' || c = '"'

/-- The class `[^”"]` (body of the captured group). -/
def isPromptChar (c : Char) : Bool := !(c = '”' || c = '"')

/-- `String.prototype.trim` on a character list: drop JS whitespace from both
ends. -/
def jsTrimL (s : List Char) : List Char :=
  ((s.dropWhile isJsSpace).reverse.dropWhile isJsSpace).reverse

/-- `String.prototype.trim`. -/
def jsTrim (s : String) : String := String.mk (jsTrimL s.data)

/-! ## The regular expression engine

`parseMultiPrompts` uses the fixed JavaScript regex
`/\d+\.\s*.*[\r\n]+[“"]([^”"]+)[”"]/g` with `matchAll`.  We embed exactly the
constructs it needs: single-character classes, greedy `*` and `+`, and one
greedy captured group, with JavaScript's leftmost / greedy-first backtracking
order. -/

/-- One element of the regex pattern. -/
inductive RE where
  /-- a single character of the class -/
  | one (p : Char → Bool)
  /-- greedy `p*` -/
  | star (p : Char → Bool)
  /-- greedy `p+` -/
  | plus (p : Char → Bool)
  /-- greedy captured `(p+)` -/
  | grp (p : Char → Bool)

/-- All ways to split `s` into a prefix of characters satisfying `p` and the
remaining suffix, longest prefix first (the greedy backtracking order). -/
def starSplits (p : Char → Bool) : List Char → List (List Char × List Char)
  | [] => [([], [])]
  | c :: s =>
    if p c then (starSplits p s).map (fun tr => (c :: tr.1, tr.2)) ++ [([], c :: s)]
    else [([], c :: s)]

/-- Match the pattern `re` at the start of `s`, greedy with backtracking.
Returns the capture of the (single) group and the remaining input after the
match. -/
def matchSeq : List RE → List Char → Option (Option (List Char) × List Char)
  | [], s => some (none, s)
  | .one p :: rest, s =>
    match s with
    | [] => none
    | c :: s' => if p c then matchSeq rest s' else none
  | .star p :: rest, s =>
    (starSplits p s).findSome? (fun tr => matchSeq rest tr.2)
  | .plus p :: rest, s =>
    match s with
    | [] => none
    | c :: s' =>
      if p c then (starSplits p s').findSome? (fun tr => matchSeq rest tr.2)
      else none
  | .grp p :: rest, s =>
    match s with
    | [] => none
    | c :: s' =>
      if p c then
        (starSplits p s').findSome? (fun tr =>
          match matchSeq rest tr.2 with
          | some (_, fin) => some (some (c :: tr.1), fin)
          | none => none)
      else none

/-- The embedded pattern `\d+\.\s*.*[\r\n]+[“"]([^”"]+)[”"]`. -/
def promptPattern : List RE :=
  [.plus Char.isDigit, .one (fun c => c = '.'), .star isJsSpace, .star isDotChar,
   .plus isCRLF, .one isOpenQuote, .grp isPromptChar, .one isCloseQuote]

/-- `text.matchAll(regex)`: scan left to right; at each position try the
pattern; on a match record the capture and resume after the match (the match
always consumes at least one character, so `lastIndex` strictly advances).
`fuel` bounds the recursion and is instantiated with the input length. -/
def scanAux : Nat → List Char → List (List Char)
  | 0, _ => []
  | _ + 1, [] => []
  | fuel + 1, c :: s =>
    match matchSeq promptPattern (c :: s) with
    | some (some cap, rem) => cap :: scanAux fuel rem
    | some (none, _) => scanAux fuel s
    | none => scanAux fuel s

/-- `parseMultiPrompts` on character lists: each match's capture, trimmed
(`match[1]` of a successful match is nonempty, hence truthy, so every match
contributes). -/
def parseMultiPromptsL (s : List Char) : List (List Char) :=
  (scanAux s.length s).map jsTrimL

/-- `parseMultiPrompts` from `App.tsx`: extract the quoted prompts following
numbered list markers. -/
def parseMultiPrompts (text : String) : List String :=
  (parseMultiPromptsL text.data).map String.mk

example : parseMultiPrompts "1. a\n\"bb\"" = ["bb"] := by decide

example : parseMultiPrompts "no prompts here" = [] := by decide

/-- The built-in example prompts from `App.tsx`. -/
def examplePrompts : List (String × String) :=
  [("Baby Fox in Flowers",
    "Cute baby fox sitting among simple flowers and butterflies, bold thick outlines, clear shapes, easy for kids, with small fun details like mushrooms and leaves."),
   ("Smiling Dinosaur in Jungle",
    "Friendly cartoon dinosaur surrounded by simple trees, clouds, and leaves, bold outlines, easy shapes, small details like tiny rocks and flowers.")]

/-- The textarea text installed by the "Use multi-prompt example" button:
entries `"<n>. <title>\n“<prompt>”"` joined by `"\n\n"`. -/
def multiPromptExample : String :=
  String.intercalate "\n\n"
    ((examplePrompts.enum.map (fun pe =>
      toString (pe.1 + 1) ++ ". " ++ pe.2.1 ++ "\n“" ++ pe.2.2 ++ "”")))

example : parseMultiPrompts multiPromptExample = examplePrompts.map (·.2) := by decide

/-! ## `parseInt` and the number-of-images input -/

/-- Value of a digit run, base 10. -/
def digitsVal (l : List Char) : Nat :=
  l.foldl (fun acc c => 10 * acc + (c.toNat - '0'.toNat)) 0

/-- JavaScript `parseInt(s, 10)`: skip leading whitespace, optional sign,
then the longest leading digit run; `none` models `NaN` (no digits). -/
def jsParseInt (s : String) : Option Int :=
  match s.data.dropWhile isJsSpace with
  | '-' :: rest =>
    match rest.takeWhile Char.isDigit with
    | [] => none
    | ds => some (-(digitsVal ds : Int))
  | '+' :: rest =>
    match rest.takeWhile Char.isDigit with
    | [] => none
    | ds => some (digitsVal ds : Int)
  | rest =>
    match rest.takeWhile Char.isDigit with
    | [] => none
    | ds => some (digitsVal ds : Int)

/-- The number-input `onChange` handler value:
`Math.max(1, Math.min(5, parseInt(e.target.value, 10) || 1))`.
`|| 1` replaces the falsy values `NaN` and `0` by `1`. -/
def numberOfImagesFromInput (v : String) : Int :=
  let n : Int :=
    match jsParseInt v with
    | none => 1
    | some 0 => 1
    | some k => k
  max 1 (min 5 n)

/-! ## The Gemini service layer (`services/geminiService.ts`)

The network is modelled as an oracle `ImgApi` mapping each request to either a
thrown value or a response; a response `some data` carries valid inline image
data, `none` models a response from which no image data can be extracted.  A
JavaScript thrown value is either an `Error` with a message or a non-`Error`
value. -/

/-- A JavaScript thrown value. -/
inductive Thrown where
  /-- an `Error` instance carrying its `message` -/
  | err (msg : String)
  /-- any non-`Error` thrown value -/
  | nonError
deriving DecidableEq, Repr

/-- One `generateContent` request, recording the inputs the code sends. -/
inductive ApiCall where
  /-- text-to-image request of `generateOriginalImage` (full composed prompt) -/
  | genOriginal (prompt : String)
  /-- image+text request of `generateColoringPageFromImage` (base64 input image) -/
  | genColoringFromImage (imageBase64 : String)
  /-- text-to-image request of `generateColoringPageFromPrompt` (full composed prompt) -/
  | genColoringFromPrompt (prompt : String)
deriving DecidableEq, Repr

/-- The image-generation network oracle: `.ok (some data)` is a response with
inline image data, `.ok none` a malformed response without it, `.error` a
throw. -/
abbrev ImgApi : Type := ApiCall → Except Thrown (Option String)

/-- `GenerationMode` from `geminiService.ts`. -/
inductive GenerationMode where
  | both
  | original
  | coloring
deriving DecidableEq, Repr

/-- The composed prompt of `generateOriginalImage`. -/
def originalImagePrompt (prompt : String) : String :=
  "A vibrant, full-color image of: " ++ prompt

/-- The composed prompt of `generateColoringPageFromPrompt`. -/
def coloringFromPromptPrompt (prompt : String) : String :=
  "A coloring book page of: " ++ prompt ++
  ". Use a clean, easy-to-color style with bold, solid, black lines. The final image must be strictly black and white, with no colors, shading, or gray tones. Focus on creating clear outlines and open spaces perfect for coloring."

/-- `generateOriginalImage`: one request; a malformed response raises an
`Error`.  Returns the issued requests alongside the outcome. -/
def generateOriginalImage (api : ImgApi) (prompt : String) :
    List ApiCall × Except Thrown String :=
  let call := ApiCall.genOriginal (originalImagePrompt prompt)
  ([call],
    match api call with
    | .error e => .error e
    | .ok none =>
      .error (.err "Failed to generate original image. The model did not return valid image data.")
    | .ok (some d) => .ok d)

/-- `generateColoringPageFromImage`: one request taking the base image. -/
def generateColoringPageFromImage (api : ImgApi) (imageBase64 : String) :
    List ApiCall × Except Thrown String :=
  let call := ApiCall.genColoringFromImage imageBase64
  ([call],
    match api call with
    | .error e => .error e
    | .ok none =>
      .error (.err "Failed to generate coloring page. The model did not return valid image data.")
    | .ok (some d) => .ok d)

/-- `generateColoringPageFromPrompt`: one request from the text prompt. -/
def generateColoringPageFromPrompt (api : ImgApi) (prompt : String) :
    List ApiCall × Except Thrown String :=
  let call := ApiCall.genColoringFromPrompt (coloringFromPromptPrompt prompt)
  ([call],
    match api call with
    | .error e => .error e
    | .ok none =>
      .error (.err "Failed to generate coloring page from prompt. The model did not return valid image data.")
    | .ok (some d) => .ok d)

/-- The `catch` block of `generateColoringBookImages`: an `Error` is re-thrown
with the descriptive prefix, anything else becomes the fixed unknown-error
`Error`. -/
def wrapGenFailure : Except Thrown (Option String × Option String) →
    Except Thrown (Option String × Option String)
  | .ok a => .ok a
  | .error (.err m) => .error (.err ("Failed to generate images: " ++ m))
  | .error .nonError => .error (.err "An unknown error occurred during image generation.")

/-- `generateColoringBookImages`: per mode, one or two sequential requests;
in `both` mode the second request takes the image returned by the first.
Returns the issued requests and the outcome pair
`(originalImage, coloringPageImage)`. -/
def generateColoringBookImages (api : ImgApi) (prompt : String)
    (mode : GenerationMode) :
    List ApiCall × Except Thrown (Option String × Option String) :=
  let inner : List ApiCall × Except Thrown (Option String × Option String) :=
    match mode with
    | .original =>
      let cr := generateOriginalImage api prompt
      (cr.1, cr.2.map (fun d => (some d, none)))
    | .coloring =>
      let cr := generateColoringPageFromPrompt api prompt
      (cr.1, cr.2.map (fun d => (none, some d)))
    | .both =>
      let cr1 := generateOriginalImage api prompt
      match cr1.2 with
      | .error e => (cr1.1, .error e)
      | .ok img =>
        let cr2 := generateColoringPageFromImage api img
        (cr1.1 ++ cr2.1, cr2.2.map (fun d => (some img, some d)))
  (inner.1, wrapGenFailure inner.2)

/-! ## `getTrendingNiches` -/

/-- A JSON value, as produced by `JSON.parse`. -/
inductive Json where
  | jnull
  | jbool (b : Bool)
  | jnum (n : Int)
  | jstr (s : String)
  | jarr (elems : List Json)
  | jobj (fields : List (String × Json))

/-- JavaScript truthiness of a parsed JSON value (`null`, `false`, `0` and
`""` are falsy; every object and array is truthy). -/
def Json.truthy : Json → Bool
  | .jnull => false
  | .jbool b => b
  | .jnum n => n != 0
  | .jstr s => s != ""
  | .jarr _ => true
  | .jobj _ => true

/-- Property access `v["k"]` on a parsed JSON value: only objects have own
properties; with duplicate keys `JSON.parse` keeps the last. -/
def Json.getField : Json → String → Option Json
  | .jobj fields, k => (fields.reverse.find? (fun f => f.1 = k)).map (fun f => f.2)
  | _, _ => none

/-- The check `parsed && Array.isArray(parsed.niches)`. -/
def nichesPayloadOk (j : Json) : Bool :=
  j.truthy &&
    (match j.getField "niches" with
     | some (.jarr _) => true
     | _ => false)

/-- The `niches` array of a well-formed payload. -/
def nichesOf (j : Json) : List Json :=
  match j.getField "niches" with
  | some (.jarr xs) => xs
  | _ => []

/-- `getTrendingNiches`: the oracle argument is the outcome of the single
request (either a thrown value — API failure or `JSON.parse` throw — or the
parsed JSON payload).  A payload without a `niches` array raises an `Error`;
the `catch` block wraps every `Error` with the descriptive prefix and replaces
non-`Error` throws by the fixed unknown-error message. -/
def getTrendingNiches (resp : Except Thrown Json) : Except Thrown (List Json) :=
  let inner : Except Thrown (List Json) :=
    match resp with
    | .error e => .error e
    | .ok parsed =>
      if nichesPayloadOk parsed then .ok (nichesOf parsed)
      else .error (.err "Could not parse the list of trending niches from the AI response.")
  match inner with
  | .ok v => .ok v
  | .error (.err m) => .error (.err ("Failed to fetch trending niches: " ++ m))
  | .error .nonError => .error (.err "An unknown error occurred while fetching trending niches.")

/-! ## `App.tsx` state, history and the generation handler -/

/-- One entry of `generatedImages` / `HistoryItem.images`:
`{ original: string | null; coloring: string | null }`. -/
abbrev ImagePair : Type := Option String × Option String

/-- `HistoryItem` from `types.ts`. -/
structure HistoryItem where
  id : String
  prompt : String
  images : List ImagePair
  timestamp : Nat
deriving DecidableEq, Repr

/-- The pieces of React state that `handleGenerate` reads or writes, together
with the `localStorage`-persisted history (`stored`). -/
structure GenState where
  prompt : String
  numberOfImages : Nat
  generationMode : GenerationMode
  isLoading : Bool
  error : Option String
  generatedImages : List ImagePair
  progress : Nat × Nat
  history : List HistoryItem
  stored : List HistoryItem
deriving DecidableEq, Repr

/-- Observable events of a `handleGenerate` run, in order:
`setGenerationProgress` calls, issued network requests (tagged with the index
of the prompt they belong to), and per-prompt completion / failure. -/
inductive Ev where
  /-- `setGenerationProgress({current, total})` -/
  | report (current total : Nat)
  /-- a network request issued while generating prompt `idx` -/
  | call (idx : Nat) (c : ApiCall)
  /-- `generateColoringBookImages` for prompt `idx` returned -/
  | done (idx : Nat)
  /-- `generateColoringBookImages` for prompt `idx` threw -/
  | failed (idx : Nat)
deriving DecidableEq, Repr

/-- The `data:` URL built around a returned base64 image. -/
def dataUrl (img : String) : String := "data:image/png;base64," ++ img

/-- The batch: parsed multi-prompts, or `numberOfImages` copies of the trimmed
single prompt when none are found. -/
def promptsToGenerate (prompt : String) (numberOfImages : Nat) : List String :=
  let individualPrompts := parseMultiPrompts prompt
  if individualPrompts.length > 0 then individualPrompts
  else List.replicate numberOfImages (jsTrim prompt)

/-- The `for` loop of `handleGenerate`, processing the prompts from index `i`:
report progress `i+1`, generate, accumulate the converted pair; a throw stops
the loop.  Returns the accumulated results, the thrown value if any, and the
event trace. -/
def runLoop (api : ImgApi) (mode : GenerationMode) (total : Nat) :
    List String → Nat → List ImagePair × Option Thrown × List Ev
  | [], _ => ([], none, [])
  | p :: rest, i =>
    let cr := generateColoringBookImages api p mode
    let evsHere := Ev.report (i + 1) total :: cr.1.map (Ev.call i)
    match cr.2 with
    | .error e => ([], some e, evsHere ++ [Ev.failed i])
    | .ok pair =>
      let newImagePair : ImagePair :=
        (pair.1.map dataUrl, pair.2.map dataUrl)
      let r := runLoop api mode total rest (i + 1)
      (newImagePair :: r.1, r.2.1, evsHere ++ Ev.done i :: r.2.2)

/-- The value shown by the progress UI after a trace: the `current` of the
last `report` event (`0` before any report). -/
def displayedCurrent (evs : List Ev) : Nat :=
  evs.foldl (fun acc e => match e with | .report c _ => c | _ => acc) 0

/-- The error message set by `handleGenerate`'s `catch`:
`err instanceof Error ? err.message : 'An unknown error occurred.'`. -/
def appErrMsg : Thrown → String
  | .err m => m
  | .nonError => "An unknown error occurred."

/-- `handleGenerate`: guard, reset, build the batch, run the loop, then either
save the new history item (success) or set the error message (failure).
`idStr`/`ts` stand for `new Date().toISOString()` / `Date.now()`.  Returns the
new state and the event trace. -/
def handleGenerate (api : ImgApi) (idStr : String) (ts : Nat) (s : GenState) :
    GenState × List Ev :=
  if jsTrim s.prompt = "" || s.isLoading then (s, [])
  else
    let prompts := promptsToGenerate s.prompt s.numberOfImages
    let totalToGenerate := prompts.length
    let r := runLoop api s.generationMode totalToGenerate prompts 0
    let evs := Ev.report 0 totalToGenerate :: r.2.2
    match r.2.1 with
    | none =>
      let newHistoryItem : HistoryItem :=
        { id := idStr, prompt := jsTrim s.prompt, images := r.1, timestamp := ts }
      let updatedHistory := (newHistoryItem :: s.history).take 10
      ({ s with isLoading := false, error := none, generatedImages := r.1,
                progress := (displayedCurrent evs, totalToGenerate),
                history := updatedHistory, stored := updatedHistory }, evs)
    | some e =>
      ({ s with isLoading := false, error := some (appErrMsg e),
                generatedImages := r.1,
                progress := (displayedCurrent evs, totalToGenerate) }, evs)

/-- Number of completed generations visible in a trace. -/
def countCompleted (evs : List Ev) : Nat :=
  evs.countP (fun e => match e with | .done _ => true | _ => false)

/-- Number of failed generations visible in a trace. -/
def countFailed (evs : List Ev) : Nat :=
  evs.countP (fun e => match e with | .failed _ => true | _ => false)

/-- Number of generations started in a trace: progress reports with a positive
`current` (the loop reports `i + 1` just before generating prompt `i`). -/
def countStarted (evs : List Ev) : Nat :=
  evs.countP (fun e => match e with | .report c _ => decide (0 < c) | _ => false)

/-- `displayedCurrent` with an arbitrary starting value, for reasoning about
trace segments. -/
def dispFrom (d : Nat) (evs : List Ev) : Nat :=
  evs.foldl (fun acc e => match e with | .report c _ => c | _ => acc) d

/-! ## Claim theorems: the prompt parser -/

/-- C8: applying `parseMultiPrompts` to the text built by the
"Use multi-prompt example" button returns exactly the two example prompt
strings, in order. -/
theorem parseMultiPrompts_multiPromptExample_roundTrip :
    parseMultiPrompts multiPromptExample = examplePrompts.map (fun p => p.2) := by
  decide

/-- C2: when `parseMultiPrompts` returns an empty list the batch is exactly
`numberOfImages` copies of the trimmed prompt; when it returns a non-empty
list the batch is exactly that list. -/
theorem promptsToGenerate_spec (text : String) (n : Nat) :
    (parseMultiPrompts text = [] →
      promptsToGenerate text n = List.replicate n (jsTrim text)) ∧
    (parseMultiPrompts text ≠ [] →
      promptsToGenerate text n = parseMultiPrompts text) := by
  constructor
  · intro h
    simp [promptsToGenerate, h]
  · intro h
    have hlen : 0 < (parseMultiPrompts text).length := List.length_pos.mpr h
    simp [promptsToGenerate, hlen]

theorem promptsToGenerate_spec_witness :
    promptsToGenerate "hi" 3 = List.replicate 3 (jsTrim "hi") ∧
    promptsToGenerate "1. a\n\"bb\"" 3 = parseMultiPrompts "1. a\n\"bb\"" :=
  ⟨(promptsToGenerate_spec "hi" 3).1 (by decide),
   (promptsToGenerate_spec "1. a\n\"bb\"" 3).2 (by decide)⟩

/-! ## Claim theorems: number-of-images clamping -/

/-- C9: the number-input `onChange` value is always clamped into `[1, 5]`,
non-numeric input maps to `1`, and a single-prompt fallback batch built from
it never holds more than 5 copies. -/
theorem numberOfImagesFromInput_clamped (v : String) (p : String) :
    1 ≤ numberOfImagesFromInput v ∧
    numberOfImagesFromInput v ≤ 5 ∧
    (jsParseInt v = none → numberOfImagesFromInput v = 1) ∧
    (parseMultiPrompts p = [] →
      (promptsToGenerate p (numberOfImagesFromInput v).toNat).length ≤ 5) := by
  refine ⟨le_max_left _ _, max_le (by norm_num) (min_le_left _ _), ?_, ?_⟩
  · intro h
    simp [numberOfImagesFromInput, h]
  · intro h
    have h2 : promptsToGenerate p (numberOfImagesFromInput v).toNat =
        List.replicate (numberOfImagesFromInput v).toNat (jsTrim p) := by
      simp [promptsToGenerate, h]
    rw [h2, List.length_replicate]
    have h5 : numberOfImagesFromInput v ≤ 5 := max_le (by norm_num) (min_le_left _ _)
    omega

theorem numberOfImagesFromInput_clamped_witness :
    1 ≤ numberOfImagesFromInput "abc" ∧
    numberOfImagesFromInput "abc" ≤ 5 ∧
    numberOfImagesFromInput "abc" = 1 ∧
    (promptsToGenerate "x" (numberOfImagesFromInput "abc").toNat).length ≤ 5 := by
  have h := numberOfImagesFromInput_clamped "abc" "x"
  exact ⟨h.1, h.2.1, h.2.2.1 (by decide), h.2.2.2 (by decide)⟩

/-! ## Claim theorems: handler guard and history -/

/-- C10: with an empty trimmed prompt or a generation already in progress,
`handleGenerate` returns immediately: the state is unchanged and no event
(progress report or network call) is emitted. -/
theorem handleGenerate_noop (api : ImgApi) (idStr : String) (ts : Nat)
    (s : GenState) (h : jsTrim s.prompt = "" ∨ s.isLoading = true) :
    handleGenerate api idStr ts s = (s, []) := by
  rcases h with h | h <;> simp [handleGenerate, h]

/-- A concrete image-generation oracle that always answers with valid image
data. -/
def apiAllOk : ImgApi := fun _ => .ok (some "img")

/-- A concrete base state with a pending generation. -/
def loadingState : GenState :=
  { prompt := "x", numberOfImages := 1, generationMode := .original,
    isLoading := true, error := none, generatedImages := [],
    progress := (0, 0), history := [], stored := [] }

theorem handleGenerate_noop_witness :
    handleGenerate apiAllOk "id" 0 loadingState = (loadingState, []) :=
  handleGenerate_noop apiAllOk "id" 0 loadingState (Or.inr rfl)

/-- C3: on a successful batch the saved history holds at most 10 entries, the
new `HistoryItem` first and the previously most recent entries following in
order, the oldest beyond 10 dropped; the in-memory history equals the
persisted one. -/
theorem handleGenerate_history_cap (api : ImgApi) (idStr : String) (ts : Nat)
    (s : GenState) (hp : jsTrim s.prompt ≠ "") (hl : s.isLoading = false)
    (hok : (runLoop api s.generationMode
              (promptsToGenerate s.prompt s.numberOfImages).length
              (promptsToGenerate s.prompt s.numberOfImages) 0).2.1 = none) :
    (handleGenerate api idStr ts s).1.stored.length ≤ 10 ∧
    (handleGenerate api idStr ts s).1.stored.head? =
      some { id := idStr, prompt := jsTrim s.prompt,
             images := (runLoop api s.generationMode
                          (promptsToGenerate s.prompt s.numberOfImages).length
                          (promptsToGenerate s.prompt s.numberOfImages) 0).1,
             timestamp := ts } ∧
    (handleGenerate api idStr ts s).1.stored.tail = s.history.take 9 ∧
    (handleGenerate api idStr ts s).1.history =
      (handleGenerate api idStr ts s).1.stored := by
  have hne : ¬(jsTrim s.prompt = "" || s.isLoading) = true := by
    simp [hp, hl]
  simp only [handleGenerate, if_neg hne, hok]
  refine ⟨?_, ?_, ?_, ?_⟩
  · simp [List.length_take]
  · simp [List.take_succ_cons]
  · simp [List.take_succ_cons]
  · trivial

/-- A concrete base state ready to generate. -/
def idleState : GenState :=
  { prompt := "x", numberOfImages := 1, generationMode := .original,
    isLoading := false, error := none, generatedImages := [],
    progress := (0, 0), history := [], stored := [] }

theorem handleGenerate_history_cap_witness :
    (handleGenerate apiAllOk "id" 7 idleState).1.stored.length ≤ 10 ∧
    (handleGenerate apiAllOk "id" 7 idleState).1.stored.head? =
      some { id := "id", prompt := jsTrim idleState.prompt,
             images := (runLoop apiAllOk idleState.generationMode
                          (promptsToGenerate idleState.prompt idleState.numberOfImages).length
                          (promptsToGenerate idleState.prompt idleState.numberOfImages) 0).1,
             timestamp := 7 } ∧
    (handleGenerate apiAllOk "id" 7 idleState).1.stored.tail =
      idleState.history.take 9 ∧
    (handleGenerate apiAllOk "id" 7 idleState).1.history =
      (handleGenerate apiAllOk "id" 7 idleState).1.stored :=
  handleGenerate_history_cap apiAllOk "id" 7 idleState (by decide) rfl (by decide)

/-! ## Claim theorems: the generation orchestrator -/

/-- C1: mode `original` issues exactly one request and a returned pair has a
null coloring component; mode `coloring` issues exactly one request and a
returned pair has a null original component; mode `both` issues two requests
in sequence, the second taking the image returned by the first, and a
returned pair has both components non-null. -/
theorem generateColoringBookImages_mode_calls (api : ImgApi) (p : String) :
    (generateColoringBookImages api p .original).1.length = 1 ∧
    (∀ pr, (generateColoringBookImages api p .original).2 = .ok pr →
      pr.2 = none) ∧
    (generateColoringBookImages api p .coloring).1.length = 1 ∧
    (∀ pr, (generateColoringBookImages api p .coloring).2 = .ok pr →
      pr.1 = none) ∧
    (∀ img, api (ApiCall.genOriginal (originalImagePrompt p)) = .ok (some img) →
      (generateColoringBookImages api p .both).1 =
        [ApiCall.genOriginal (originalImagePrompt p),
         ApiCall.genColoringFromImage img]) ∧
    (∀ pr, (generateColoringBookImages api p .both).2 = .ok pr →
      pr.1.isSome ∧ pr.2.isSome) := by
  refine ⟨?_, ?_, ?_, ?_, ?_, ?_⟩
  · simp [generateColoringBookImages, generateOriginalImage]
  · intro pr h
    rcases hapi : api (ApiCall.genOriginal (originalImagePrompt p)) with e | od
    · cases e <;>
        simp [generateColoringBookImages, generateOriginalImage, wrapGenFailure,
          hapi, Except.map] at h
    · cases od with
      | none =>
        simp [generateColoringBookImages, generateOriginalImage, wrapGenFailure,
          hapi, Except.map] at h
      | some d =>
        simp [generateColoringBookImages, generateOriginalImage, wrapGenFailure,
          hapi, Except.map] at h
        subst h
        rfl
  · simp [generateColoringBookImages, generateColoringPageFromPrompt]
  · intro pr h
    rcases hapi : api (ApiCall.genColoringFromPrompt (coloringFromPromptPrompt p))
        with e | od
    · cases e <;>
        simp [generateColoringBookImages, generateColoringPageFromPrompt,
          wrapGenFailure, hapi, Except.map] at h
    · cases od with
      | none =>
        simp [generateColoringBookImages, generateColoringPageFromPrompt,
          wrapGenFailure, hapi, Except.map] at h
      | some d =>
        simp [generateColoringBookImages, generateColoringPageFromPrompt,
          wrapGenFailure, hapi, Except.map] at h
        subst h
        rfl
  · intro img h
    simp [generateColoringBookImages, generateOriginalImage,
      generateColoringPageFromImage, h]
  · intro pr h
    rcases hapi : api (ApiCall.genOriginal (originalImagePrompt p)) with e | od
    · cases e <;>
        simp [generateColoringBookImages, generateOriginalImage, wrapGenFailure,
          hapi, Except.map] at h
    · cases od with
      | none =>
        simp [generateColoringBookImages, generateOriginalImage, wrapGenFailure,
          hapi, Except.map] at h
      | some d =>
        rcases hapi2 : api (ApiCall.genColoringFromImage d) with e2 | od2
        · cases e2 <;>
            simp [generateColoringBookImages, generateOriginalImage,
              generateColoringPageFromImage, wrapGenFailure, hapi, hapi2,
              Except.map] at h
        · cases od2 with
          | none =>
            simp [generateColoringBookImages, generateOriginalImage,
              generateColoringPageFromImage, wrapGenFailure, hapi, hapi2,
              Except.map] at h
          | some d2 =>
            simp [generateColoringBookImages, generateOriginalImage,
              generateColoringPageFromImage, wrapGenFailure, hapi, hapi2,
              Except.map] at h
            subst h
            exact ⟨rfl, rfl⟩

theorem generateColoringBookImages_mode_calls_witness :
    (generateColoringBookImages apiAllOk "x" .original).1.length = 1 ∧
    ((some "img", (none : Option String)) : ImagePair).2 = none ∧
    (generateColoringBookImages apiAllOk "x" .coloring).1.length = 1 ∧
    (((none : Option String), some "img") : ImagePair).1 = none ∧
    (generateColoringBookImages apiAllOk "x" .both).1 =
      [ApiCall.genOriginal (originalImagePrompt "x"),
       ApiCall.genColoringFromImage "img"] ∧
    (((some "img" : Option String).isSome ∧ (some "img" : Option String).isSome)) := by
  have h := generateColoringBookImages_mode_calls apiAllOk "x"
  exact ⟨h.1, h.2.1 (some "img", none) rfl, h.2.2.1,
    h.2.2.2.1 (none, some "img") rfl,
    h.2.2.2.2.1 "img" rfl,
    h.2.2.2.2.2 (some "img", some "img") rfl⟩

/-! ## Error wrapping -/

lemma wrapGenFailure_error_shape (x : Except Thrown (Option String × Option String))
    (e : Thrown) (h : wrapGenFailure x = .error e) :
    (∃ m0, e = .err ("Failed to generate images: " ++ m0)) ∨
    e = .err "An unknown error occurred during image generation." := by
  rcases x with t | a
  · cases t with
    | err m =>
      simp [wrapGenFailure] at h
      exact Or.inl ⟨m, h.symm⟩
    | nonError =>
      simp [wrapGenFailure] at h
      exact Or.inr h.symm
  · simp [wrapGenFailure] at h

/-- Every failure escaping `generateColoringBookImages` is an `Error` whose
message is the wrapped original message or the fixed unknown-error text. -/
lemma generateColoringBookImages_error_shape (api : ImgApi) (p : String)
    (mode : GenerationMode) (e : Thrown)
    (h : (generateColoringBookImages api p mode).2 = .error e) :
    (∃ m0, e = .err ("Failed to generate images: " ++ m0)) ∨
    e = .err "An unknown error occurred during image generation." :=
  wrapGenFailure_error_shape _ e h

lemma failed_prefix_ne_empty (m0 : String) :
    ("Failed to generate images: " ++ m0) ≠ "" := by
  intro h
  have h2 := congrArg String.length h
  rw [String.length_append] at h2
  have h3 : ("Failed to generate images: " : String).length = 27 := rfl
  have h0 : ("" : String).length = 0 := rfl
  omega

/-- The message of a wrapped generation failure is never empty. -/
lemma generateColoringBookImages_error_msg_ne (api : ImgApi) (p : String)
    (mode : GenerationMode) (e : Thrown)
    (h : (generateColoringBookImages api p mode).2 = .error e) :
    appErrMsg e ≠ "" := by
  rcases generateColoringBookImages_error_shape api p mode e h with ⟨m0, rfl⟩ | rfl
  · simpa [appErrMsg] using failed_prefix_ne_empty m0
  · intro hc
    simp [appErrMsg] at hc

/-- C7: every failure escaping `generateColoringBookImages` or
`getTrendingNiches` is an `Error` whose message carries the descriptive
prefix (when the underlying throw was an `Error`) or the fixed unknown-error
text (when it was not); a response without image data, and a niches payload
that is not an array, always raise such an `Error`. -/
theorem serviceFailures_are_wrapped_errors (api : ImgApi) (p : String)
    (m : GenerationMode) (resp : Except Thrown Json) (e e' : Thrown) (j : Json) :
    ((generateColoringBookImages api p m).2 = .error e →
      (∃ m0, e = .err ("Failed to generate images: " ++ m0)) ∨
      e = .err "An unknown error occurred during image generation.") ∧
    (getTrendingNiches resp = .error e' →
      (∃ m0, e' = .err ("Failed to fetch trending niches: " ++ m0)) ∨
      e' = .err "An unknown error occurred while fetching trending niches.") ∧
    (api (ApiCall.genOriginal (originalImagePrompt p)) = .ok none →
      (generateColoringBookImages api p .original).2 =
        .error (.err "Failed to generate images: Failed to generate original image. The model did not return valid image data.")) ∧
    (api (ApiCall.genColoringFromPrompt (coloringFromPromptPrompt p)) = .ok none →
      (generateColoringBookImages api p .coloring).2 =
        .error (.err "Failed to generate images: Failed to generate coloring page from prompt. The model did not return valid image data.")) ∧
    (api (ApiCall.genOriginal (originalImagePrompt p)) = .error .nonError →
      (generateColoringBookImages api p .original).2 =
        .error (.err "An unknown error occurred during image generation.")) ∧
    (resp = .error .nonError →
      getTrendingNiches resp =
        .error (.err "An unknown error occurred while fetching trending niches.")) ∧
    (nichesPayloadOk j = false →
      getTrendingNiches (.ok j) =
        .error (.err "Failed to fetch trending niches: Could not parse the list of trending niches from the AI response.")) := by
  refine ⟨generateColoringBookImages_error_shape api p m e, ?_, ?_, ?_, ?_, ?_, ?_⟩
  · intro h
    rcases resp with t | parsed
    · cases t with
      | err m1 =>
        simp [getTrendingNiches] at h
        exact Or.inl ⟨m1, h.symm⟩
      | nonError =>
        simp [getTrendingNiches] at h
        exact Or.inr h.symm
    · by_cases hok : nichesPayloadOk parsed
      · simp [getTrendingNiches, hok] at h
      · simp [getTrendingNiches, hok] at h
        exact Or.inl ⟨_, h.symm⟩
  · intro h
    simp [generateColoringBookImages, generateOriginalImage, wrapGenFailure, h,
      Except.map]
  · intro h
    simp [generateColoringBookImages, generateColoringPageFromPrompt,
      wrapGenFailure, h, Except.map]
  · intro h
    simp [generateColoringBookImages, generateOriginalImage, wrapGenFailure, h,
      Except.map]
  · intro h
    subst h
    simp [getTrendingNiches]
  · intro h
    simp [getTrendingNiches, h]

/-- A concrete oracle whose responses never carry image data. -/
def apiNoData : ImgApi := fun _ => .ok none

/-- A concrete oracle that always throws a non-`Error` value. -/
def apiThrowsNonError : ImgApi := fun _ => .error .nonError

theorem serviceFailures_are_wrapped_errors_witness :
    ((∃ m0, Thrown.err "Failed to generate images: Failed to generate original image. The model did not return valid image data." =
        Thrown.err ("Failed to generate images: " ++ m0)) ∨
      Thrown.err "Failed to generate images: Failed to generate original image. The model did not return valid image data." =
        Thrown.err "An unknown error occurred during image generation.") ∧
    ((∃ m0, Thrown.err "Failed to fetch trending niches: Could not parse the list of trending niches from the AI response." =
        Thrown.err ("Failed to fetch trending niches: " ++ m0)) ∨
      Thrown.err "Failed to fetch trending niches: Could not parse the list of trending niches from the AI response." =
        Thrown.err "An unknown error occurred while fetching trending niches.") ∧
    (generateColoringBookImages apiNoData "x" .original).2 =
      .error (.err "Failed to generate images: Failed to generate original image. The model did not return valid image data.") ∧
    (generateColoringBookImages apiNoData "x" .coloring).2 =
      .error (.err "Failed to generate images: Failed to generate coloring page from prompt. The model did not return valid image data.") ∧
    (generateColoringBookImages apiThrowsNonError "x" .original).2 =
      .error (.err "An unknown error occurred during image generation.") ∧
    getTrendingNiches (.error .nonError) =
      .error (.err "An unknown error occurred while fetching trending niches.") ∧
    getTrendingNiches (.ok Json.jnull) =
      .error (.err "Failed to fetch trending niches: Could not parse the list of trending niches from the AI response.") := by
  have h1 := serviceFailures_are_wrapped_errors apiNoData "x" .original
    (.ok Json.jnull)
    (.err "Failed to generate images: Failed to generate original image. The model did not return valid image data.")
    (.err "Failed to fetch trending niches: Could not parse the list of trending niches from the AI response.")
    Json.jnull
  have h2 := serviceFailures_are_wrapped_errors apiThrowsNonError "x" .original
    (.error .nonError)
    (.err "Failed to generate images: Failed to generate original image. The model did not return valid image data.")
    (.err "Failed to fetch trending niches: Could not parse the list of trending niches from the AI response.")
    Json.jnull
  exact ⟨h1.1 rfl, h1.2.1 rfl, h1.2.2.1 rfl, h1.2.2.2.1 rfl,
    h2.2.2.2.2.1 rfl, h2.2.2.2.2.2.1 rfl, h1.2.2.2.2.2.2 rfl⟩

/-! ## Matcher lemmas -/

lemma starSplits_eq_append (p : Char → Bool) :
    ∀ (s : List Char), ∀ tr ∈ starSplits p s, tr.1 ++ tr.2 = s := by
  intro s
  induction s with
  | nil =>
    intro tr htr
    simp [starSplits] at htr
    simp [htr]
  | cons c s ih =>
    intro tr htr
    by_cases hc : p c
    · simp only [starSplits, if_pos hc, List.mem_append, List.mem_map,
        List.mem_singleton] at htr
      rcases htr with ⟨tr', hmem, rfl⟩ | rfl
      · simpa using ih tr' hmem
      · rfl
    · simp [starSplits, hc] at htr
      simp [htr]

lemma matchSeq_suffix :
    ∀ (re : List RE) (s : List Char) (cap : Option (List Char)) (rem : List Char),
      matchSeq re s = some (cap, rem) → rem <:+ s := by
  intro re
  induction re with
  | nil =>
    intro s cap rem h
    simp [matchSeq] at h
    rw [← h.2]
  | cons hd rest ih =>
    intro s cap rem h
    cases hd with
    | one p =>
      cases s with
      | nil => simp [matchSeq] at h
      | cons c s' =>
        by_cases hc : p c
        · simp only [matchSeq, if_pos hc] at h
          exact (ih s' cap rem h).trans (List.suffix_cons c s')
        · simp [matchSeq, hc] at h
    | star p =>
      simp only [matchSeq] at h
      obtain ⟨tr, htr, hf⟩ := List.exists_of_findSome?_eq_some h
      exact (ih tr.2 cap rem hf).trans ⟨tr.1, starSplits_eq_append p s tr htr⟩
    | plus p =>
      cases s with
      | nil => simp [matchSeq] at h
      | cons c s' =>
        by_cases hc : p c
        · simp only [matchSeq, if_pos hc] at h
          obtain ⟨tr, htr, hf⟩ := List.exists_of_findSome?_eq_some h
          exact (((ih tr.2 cap rem hf).trans
            ⟨tr.1, starSplits_eq_append p s' tr htr⟩)).trans (List.suffix_cons c s')
        · simp [matchSeq, hc] at h
    | grp p =>
      cases s with
      | nil => simp [matchSeq] at h
      | cons c s' =>
        by_cases hc : p c
        · simp only [matchSeq, if_pos hc] at h
          obtain ⟨tr, htr, hf⟩ := List.exists_of_findSome?_eq_some h
          rcases hms : matchSeq rest tr.2 with _ | ⟨cap2, rem2⟩
          · rw [hms] at hf
            simp at hf
          · rw [hms] at hf
            simp at hf
            rw [← hf.2]
            exact ((ih tr.2 cap2 rem2 hms).trans
              ⟨tr.1, starSplits_eq_append p s' tr htr⟩).trans (List.suffix_cons c s')
        · simp [matchSeq, hc] at h

lemma scanAux_mem :
    ∀ (fuel : Nat) (s : List Char) (x : List Char), x ∈ scanAux fuel s →
      ∃ s₁ cap rem, s₁ <:+ s ∧
        matchSeq promptPattern s₁ = some (some cap, rem) ∧ x = cap := by
  intro fuel
  induction fuel with
  | zero =>
    intro s x hx
    simp [scanAux] at hx
  | succ n ih =>
    intro s x hx
    cases s with
    | nil => simp [scanAux] at hx
    | cons c s' =>
      rcases hms : matchSeq promptPattern (c :: s') with _ | ⟨cap?, rem⟩
      · rw [scanAux, hms] at hx
        obtain ⟨s₁, cap, rem', hs, hm, hx'⟩ := ih s' x hx
        exact ⟨s₁, cap, rem', hs.trans (List.suffix_cons c s'), hm, hx'⟩
      · cases cap? with
        | none =>
          rw [scanAux, hms] at hx
          obtain ⟨s₁, cap, rem', hs, hm, hx'⟩ := ih s' x hx
          exact ⟨s₁, cap, rem', hs.trans (List.suffix_cons c s'), hm, hx'⟩
        | some cap =>
          rw [scanAux, hms, List.mem_cons] at hx
          rcases hx with rfl | hx
          · exact ⟨c :: s', x, rem, List.suffix_rfl, hms, rfl⟩
          · obtain ⟨s₁, cap', rem', hs, hm, hx'⟩ := ih rem x hx
            exact ⟨s₁, cap', rem',
              hs.trans (matchSeq_suffix promptPattern (c :: s') (some cap) rem hms),
              hm, hx'⟩

lemma scanAux_nil_of_no_match :
    ∀ (fuel : Nat) (s : List Char),
      (∀ s₁, s₁ <:+ s → matchSeq promptPattern s₁ = none) →
      scanAux fuel s = [] := by
  intro fuel
  induction fuel with
  | zero => intro s h; rfl
  | succ n ih =>
    intro s h
    cases s with
    | nil => rfl
    | cons c s' =>
      have h0 := h (c :: s') List.suffix_rfl
      rw [scanAux, h0]
      exact ih s' (fun s₁ hs => h s₁ (hs.trans (List.suffix_cons c s')))

/-! ## Trim lemmas -/

lemma head_dropWhile_not (p : Char → Bool) :
    ∀ (l : List Char) (h : Char), (l.dropWhile p).head? = some h → p h = false := by
  intro l
  induction l with
  | nil => intro h hh; simp [List.dropWhile] at hh
  | cons c l ih =>
    intro h hh
    by_cases hc : p c
    · rw [List.dropWhile_cons, if_pos hc] at hh
      exact ih h hh
    · rw [List.dropWhile_cons, if_neg hc] at hh
      simp at hh
      rw [← hh]
      simpa using hc

lemma getLast?_cons_of_ne_nil (c : Char) (l : List Char) (h : l ≠ []) :
    (c :: l).getLast? = l.getLast? := by
  cases l with
  | nil => exact absurd rfl h
  | cons a l' => simp [List.getLast?_cons_cons]

lemma getLast?_dropWhile (p : Char → Bool) :
    ∀ (l : List Char), l.dropWhile p ≠ [] →
      (l.dropWhile p).getLast? = l.getLast? := by
  intro l
  induction l with
  | nil => intro h; simp [List.dropWhile] at h
  | cons c l ih =>
    intro hne
    by_cases hc : p c
    · rw [List.dropWhile_cons, if_pos hc] at hne ⊢
      have hlne : l ≠ [] := by
        intro he
        subst he
        simp [List.dropWhile] at hne
      rw [ih hne, getLast?_cons_of_ne_nil c l hlne]
    · rw [List.dropWhile_cons, if_neg hc]

lemma dropWhile_eq_self_of_head (p : Char → Bool) (l : List Char)
    (h : ∀ c, l.head? = some c → p c = false) : l.dropWhile p = l := by
  cases l with
  | nil => rfl
  | cons c l' =>
    rw [List.dropWhile_cons, if_neg]
    simp [h c rfl]

lemma jsTrimL_head (s : List Char) (h : Char)
    (hh : (jsTrimL s).head? = some h) : isJsSpace h = false := by
  unfold jsTrimL at hh
  rw [List.head?_reverse] at hh
  have hne : (s.dropWhile isJsSpace).reverse.dropWhile isJsSpace ≠ [] := by
    intro he
    rw [he] at hh
    simp at hh
  rw [getLast?_dropWhile isJsSpace _ hne, List.getLast?_reverse] at hh
  exact head_dropWhile_not isJsSpace _ h hh

lemma jsTrimL_last (s : List Char) (h : Char)
    (hh : (jsTrimL s).getLast? = some h) : isJsSpace h = false := by
  unfold jsTrimL at hh
  rw [List.getLast?_reverse] at hh
  exact head_dropWhile_not isJsSpace _ h hh

lemma jsTrimL_idem (s : List Char) : jsTrimL (jsTrimL s) = jsTrimL s := by
  have h1 : (jsTrimL s).dropWhile isJsSpace = jsTrimL s :=
    dropWhile_eq_self_of_head isJsSpace (jsTrimL s) (jsTrimL_head s)
  have h2 : (jsTrimL s).reverse.dropWhile isJsSpace = (jsTrimL s).reverse := by
    apply dropWhile_eq_self_of_head
    intro c hc
    rw [List.head?_reverse] at hc
    exact jsTrimL_last s c hc
  show ((((jsTrimL s).dropWhile isJsSpace).reverse).dropWhile isJsSpace).reverse
      = jsTrimL s
  rw [h1, h2, List.reverse_reverse]

/-- C6: every string returned by the parser is trimmed and is the trimmed
capture of a pattern match at some position of the input; inputs in which the
pattern matches nowhere yield the empty list. -/
theorem parseMultiPrompts_sound (text : String) :
    (∀ x ∈ parseMultiPromptsL text.data,
      jsTrimL x = x ∧
      ∃ s₁ cap rem, s₁ <:+ text.data ∧
        matchSeq promptPattern s₁ = some (some cap, rem) ∧ x = jsTrimL cap) ∧
    ((∀ s₁, s₁ <:+ text.data → matchSeq promptPattern s₁ = none) →
      parseMultiPrompts text = []) := by
  constructor
  · intro x hx
    simp only [parseMultiPromptsL, List.mem_map] at hx
    obtain ⟨y, hy, rfl⟩ := hx
    obtain ⟨s₁, cap, rem, hs, hm, heq⟩ := scanAux_mem _ _ y hy
    subst heq
    exact ⟨jsTrimL_idem y, s₁, y, rem, hs, hm, rfl⟩
  · intro h
    simp only [parseMultiPrompts, parseMultiPromptsL]
    rw [scanAux_nil_of_no_match _ _ h]
    rfl

theorem parseMultiPrompts_sound_witness :
    (jsTrimL ("bb".data) = "bb".data ∧
      ∃ s₁ cap rem, s₁ <:+ ("1. a\n\"bb\"").data ∧
        matchSeq promptPattern s₁ = some (some cap, rem) ∧
        "bb".data = jsTrimL cap) ∧
    parseMultiPrompts "" = [] := by
  refine ⟨(parseMultiPrompts_sound "1. a\n\"bb\"").1 ("bb".data) (by decide), ?_⟩
  apply (parseMultiPrompts_sound "").2
  intro s₁ hs
  have h0 : ("" : String).data = [] := rfl
  rw [h0] at hs
  rw [List.suffix_nil] at hs
  subst hs
  rfl

/-! ## Loop lemmas for abort-on-failure and progress -/

lemma wrappedGenMsg_ne (e : Thrown)
    (h : (∃ m0, e = .err ("Failed to generate images: " ++ m0)) ∨
      e = .err "An unknown error occurred during image generation.") :
    appErrMsg e ≠ "" := by
  rcases h with ⟨m0, rfl⟩ | rfl
  · simpa [appErrMsg] using failed_prefix_ne_empty m0
  · intro hc
    simp [appErrMsg] at hc

lemma runLoop_error_props (api : ImgApi) (mode : GenerationMode) (total : Nat) :
    ∀ (ps : List String) (i : Nat) (res : List ImagePair) (e : Thrown)
      (evs : List Ev),
      runLoop api mode total ps i = (res, some e, evs) →
      ((∃ m0, e = .err ("Failed to generate images: " ++ m0)) ∨
        e = .err "An unknown error occurred during image generation.") ∧
      (∀ j c, Ev.call j c ∈ evs → j ≤ i + res.length) := by
  intro ps
  induction ps with
  | nil =>
    intro i res e evs h
    simp [runLoop] at h
  | cons p rest ih =>
    intro i res e evs h
    rcases hc : (generateColoringBookImages api p mode).2 with e0 | pair
    · simp only [runLoop, hc] at h
      rw [Prod.mk.injEq, Prod.mk.injEq] at h
      obtain ⟨h1, h2, h3⟩ := h
      obtain rfl := Option.some.inj h2
      subst h1
      subst h3
      constructor
      · exact generateColoringBookImages_error_shape api p mode e0 hc
      · intro j c hj
        rcases List.mem_cons.mp hj with hj1 | hj2
        · exact Ev.noConfusion hj1
        · rcases List.mem_append.mp hj2 with hj3 | hj4
          · obtain ⟨a, ha, hae⟩ := List.mem_map.mp hj3
            injection hae with hji hjc
            subst hji
            simp
          · exact Ev.noConfusion (List.mem_singleton.mp hj4)
    · rcases hr : runLoop api mode total rest (i + 1) with ⟨res2, err2, evs2⟩
      simp only [runLoop, hc, hr] at h
      rw [Prod.mk.injEq, Prod.mk.injEq] at h
      obtain ⟨h1, h2, h3⟩ := h
      subst h1
      subst h3
      have ihr := ih (i + 1) res2 e evs2 (by rw [hr, h2])
      constructor
      · exact ihr.1
      · intro j c hj
        rcases List.mem_cons.mp hj with hj1 | hj2
        · exact Ev.noConfusion hj1
        · rcases List.mem_append.mp hj2 with hj3 | hj4
          · obtain ⟨a, ha, hae⟩ := List.mem_map.mp hj3
            injection hae with hji hjc
            subst hji
            simp only [List.length_cons]
            omega
          · rcases List.mem_cons.mp hj4 with hj5 | hj6
            · exact Ev.noConfusion hj5
            · have hb := ihr.2 j c hj6
              simp only [List.length_cons]
              omega

/-- C4: if a generation call in the batch throws, `handleGenerate` issues no
request for any prompt past the failing one, sets a non-empty error message,
leaves both the in-memory and persisted history unchanged, and keeps exactly
the results completed before the failure in the displayed image list. -/
theorem handleGenerate_abort_on_failure (api : ImgApi) (idStr : String)
    (ts : Nat) (s : GenState) (e : Thrown)
    (hp : jsTrim s.prompt ≠ "") (hl : s.isLoading = false)
    (herr : (runLoop api s.generationMode
              (promptsToGenerate s.prompt s.numberOfImages).length
              (promptsToGenerate s.prompt s.numberOfImages) 0).2.1 = some e) :
    (handleGenerate api idStr ts s).1.stored = s.stored ∧
    (handleGenerate api idStr ts s).1.history = s.history ∧
    (handleGenerate api idStr ts s).1.error = some (appErrMsg e) ∧
    appErrMsg e ≠ "" ∧
    (handleGenerate api idStr ts s).1.generatedImages =
      (runLoop api s.generationMode
        (promptsToGenerate s.prompt s.numberOfImages).length
        (promptsToGenerate s.prompt s.numberOfImages) 0).1 ∧
    (∀ j c, Ev.call j c ∈ (handleGenerate api idStr ts s).2 →
      j ≤ (runLoop api s.generationMode
            (promptsToGenerate s.prompt s.numberOfImages).length
            (promptsToGenerate s.prompt s.numberOfImages) 0).1.length) := by
  have hne : ¬(jsTrim s.prompt = "" || s.isLoading) = true := by
    simp [hp, hl]
  rcases hr : runLoop api s.generationMode
      (promptsToGenerate s.prompt s.numberOfImages).length
      (promptsToGenerate s.prompt s.numberOfImages) 0 with ⟨res, err, evs⟩
  rw [hr] at herr
  simp only at herr
  subst herr
  have hprops := runLoop_error_props api s.generationMode
    (promptsToGenerate s.prompt s.numberOfImages).length
    (promptsToGenerate s.prompt s.numberOfImages) 0 res e evs hr
  simp only [handleGenerate, if_neg hne, hr]
  refine ⟨trivial, trivial, trivial, wrappedGenMsg_ne e hprops.1, trivial, ?_⟩
  intro j c hj
  rcases List.mem_cons.mp hj with hj1 | hj2
  · exact Ev.noConfusion hj1
  · simpa using hprops.2 j c hj2

/-- A concrete oracle that always throws an `Error` with message "boom". -/
def apiBoom : ImgApi := fun _ => .error (.err "boom")

theorem handleGenerate_abort_on_failure_witness :
    (handleGenerate apiBoom "id" 0 idleState).1.stored = idleState.stored ∧
    (handleGenerate apiBoom "id" 0 idleState).1.history = idleState.history ∧
    (handleGenerate apiBoom "id" 0 idleState).1.error =
      some (appErrMsg (.err "Failed to generate images: boom")) ∧
    appErrMsg (.err "Failed to generate images: boom") ≠ "" ∧
    (handleGenerate apiBoom "id" 0 idleState).1.generatedImages =
      (runLoop apiBoom idleState.generationMode
        (promptsToGenerate idleState.prompt idleState.numberOfImages).length
        (promptsToGenerate idleState.prompt idleState.numberOfImages) 0).1 ∧
    0 ≤ (runLoop apiBoom idleState.generationMode
          (promptsToGenerate idleState.prompt idleState.numberOfImages).length
          (promptsToGenerate idleState.prompt idleState.numberOfImages) 0).1.length := by
  have h := handleGenerate_abort_on_failure apiBoom "id" 0 idleState
    (.err "Failed to generate images: boom") (by decide) rfl (by decide)
  exact ⟨h.1, h.2.1, h.2.2.1, h.2.2.2.1, h.2.2.2.2.1,
    h.2.2.2.2.2 0 (ApiCall.genOriginal (originalImagePrompt "x")) (by decide)⟩

/-! ## Progress-trace lemmas -/

lemma dispFrom_nil (d : Nat) : dispFrom d [] = d := rfl

lemma dispFrom_cons_report (d c t : Nat) (evs : List Ev) :
    dispFrom d (Ev.report c t :: evs) = dispFrom c evs := rfl

lemma dispFrom_cons_call (d j : Nat) (c : ApiCall) (evs : List Ev) :
    dispFrom d (Ev.call j c :: evs) = dispFrom d evs := rfl

lemma dispFrom_cons_done (d j : Nat) (evs : List Ev) :
    dispFrom d (Ev.done j :: evs) = dispFrom d evs := rfl

lemma dispFrom_cons_failed (d j : Nat) (evs : List Ev) :
    dispFrom d (Ev.failed j :: evs) = dispFrom d evs := rfl

lemma dispFrom_append (d : Nat) (xs ys : List Ev) :
    dispFrom d (xs ++ ys) = dispFrom (dispFrom d xs) ys :=
  List.foldl_append _ _ _ _

lemma countStarted_nil : countStarted [] = 0 := rfl

lemma countCompleted_nil : countCompleted [] = 0 := rfl

lemma countFailed_nil : countFailed [] = 0 := rfl

lemma countStarted_cons_report_succ (k t : Nat) (evs : List Ev) :
    countStarted (Ev.report (k + 1) t :: evs) = countStarted evs + 1 := by
  simp [countStarted, List.countP_cons]

lemma countStarted_cons_report_zero (t : Nat) (evs : List Ev) :
    countStarted (Ev.report 0 t :: evs) = countStarted evs := by
  simp [countStarted, List.countP_cons]

lemma countCompleted_cons_report (c t : Nat) (evs : List Ev) :
    countCompleted (Ev.report c t :: evs) = countCompleted evs := by
  simp [countCompleted, List.countP_cons]

lemma countFailed_cons_report (c t : Nat) (evs : List Ev) :
    countFailed (Ev.report c t :: evs) = countFailed evs := by
  simp [countFailed, List.countP_cons]

lemma countCompleted_cons_done (j : Nat) (evs : List Ev) :
    countCompleted (Ev.done j :: evs) = countCompleted evs + 1 := by
  simp [countCompleted, List.countP_cons]

lemma countStarted_cons_done (j : Nat) (evs : List Ev) :
    countStarted (Ev.done j :: evs) = countStarted evs := by
  simp [countStarted, List.countP_cons]

lemma countFailed_cons_done (j : Nat) (evs : List Ev) :
    countFailed (Ev.done j :: evs) = countFailed evs := by
  simp [countFailed, List.countP_cons]

lemma countStarted_cons_failed (j : Nat) (evs : List Ev) :
    countStarted (Ev.failed j :: evs) = countStarted evs := by
  simp [countStarted, List.countP_cons]

lemma countCompleted_cons_failed (j : Nat) (evs : List Ev) :
    countCompleted (Ev.failed j :: evs) = countCompleted evs := by
  simp [countCompleted, List.countP_cons]

lemma countFailed_cons_failed (j : Nat) (evs : List Ev) :
    countFailed (Ev.failed j :: evs) = countFailed evs + 1 := by
  simp [countFailed, List.countP_cons]

lemma countStarted_append (xs ys : List Ev) :
    countStarted (xs ++ ys) = countStarted xs + countStarted ys :=
  List.countP_append _ _ _

lemma countCompleted_append (xs ys : List Ev) :
    countCompleted (xs ++ ys) = countCompleted xs + countCompleted ys :=
  List.countP_append _ _ _

lemma countFailed_append (xs ys : List Ev) :
    countFailed (xs ++ ys) = countFailed xs + countFailed ys :=
  List.countP_append _ _ _

/-- A trace segment consisting only of network-call events changes nothing:
the displayed progress value and all three counters are untouched. -/
lemma counts_of_calls_only (t : List Ev)
    (h : ∀ e ∈ t, ∃ j c, e = Ev.call j c) (d : Nat) :
    dispFrom d t = d ∧ countStarted t = 0 ∧ countCompleted t = 0 ∧
    countFailed t = 0 := by
  induction t generalizing d with
  | nil => exact ⟨rfl, rfl, rfl, rfl⟩
  | cons e t iht =>
    obtain ⟨j, c, rfl⟩ := h e (List.mem_cons_self e t)
    have ih' := iht (fun e he => h e (List.mem_cons_of_mem _ he)) d
    refine ⟨?_, ?_, ?_, ?_⟩
    · rw [dispFrom_cons_call]; exact ih'.1
    · simpa [countStarted, List.countP_cons] using ih'.2.1
    · simpa [countCompleted, List.countP_cons] using ih'.2.2.1
    · simpa [countFailed, List.countP_cons] using ih'.2.2.2

lemma prefix_append_cases {α : Type _} (l l₁ l₂ : List α) (h : l <+: l₁ ++ l₂) :
    l <+: l₁ ∨ ∃ t, l = l₁ ++ t ∧ t <+: l₂ := by
  induction l₁ generalizing l with
  | nil => exact Or.inr ⟨l, rfl, h⟩
  | cons a l₁ ih =>
    rcases List.prefix_cons_iff.mp h with rfl | ⟨t, rfl, ht⟩
    · exact Or.inl List.nil_prefix
    · rcases ih t ht with h1 | ⟨t2, rfl, ht2⟩
      · exact Or.inl (List.cons_prefix_cons.mpr ⟨rfl, h1⟩)
      · exact Or.inr ⟨t2, rfl, ht2⟩

lemma runLoop_progress_invariant (api : ImgApi) (mode : GenerationMode)
    (total : Nat) :
    ∀ (ps : List String) (i : Nat) (t : List Ev),
      t <+: (runLoop api mode total ps i).2.2 →
      dispFrom i t = i + countStarted t ∧
      countCompleted t + countFailed t ≤ countStarted t ∧
      countStarted t ≤ countCompleted t + countFailed t + 1 := by
  intro ps
  induction ps with
  | nil =>
    intro i t ht
    simp only [runLoop] at ht
    rw [List.prefix_nil] at ht
    subst ht
    simp [dispFrom_nil, countStarted_nil, countCompleted_nil, countFailed_nil]
  | cons p rest ih =>
    intro i t ht
    have hmapcalls : ∀ e ∈ (generateColoringBookImages api p mode).1.map (Ev.call i),
        ∃ j c, e = Ev.call j c := by
      intro e he
      obtain ⟨a, ha, rfl⟩ := List.mem_map.mp he
      exact ⟨i, a, rfl⟩
    rcases hc : (generateColoringBookImages api p mode).2 with e0 | pair
    · simp only [runLoop, hc] at ht
      rcases List.prefix_cons_iff.mp ht with rfl | ⟨t', rfl, ht'⟩
      · simp [dispFrom_nil, countStarted_nil, countCompleted_nil, countFailed_nil]
      · rcases prefix_append_cases t' _ _ ht' with hcalls | ⟨t2, rfl, ht2⟩
        · have hall : ∀ e ∈ t', ∃ j c, e = Ev.call j c :=
            fun e he => hmapcalls e (hcalls.subset he)
          obtain ⟨hd, hs, hcmp, hf⟩ := counts_of_calls_only t' hall (i + 1)
          rw [dispFrom_cons_report, countStarted_cons_report_succ,
            countCompleted_cons_report, countFailed_cons_report,
            hd, hs, hcmp, hf]
          omega
        · obtain ⟨hd, hs, hcmp, hf⟩ := counts_of_calls_only _ hmapcalls (i + 1)
          rcases List.prefix_cons_iff.mp ht2 with rfl | ⟨t3, rfl, ht3⟩
          · rw [dispFrom_cons_report, countStarted_cons_report_succ,
              countCompleted_cons_report, countFailed_cons_report,
              List.append_nil, hd, hs, hcmp, hf]
            omega
          · rw [List.prefix_nil] at ht3
            subst ht3
            rw [dispFrom_cons_report, countStarted_cons_report_succ,
              countCompleted_cons_report, countFailed_cons_report,
              dispFrom_append, countStarted_append, countCompleted_append,
              countFailed_append, hd, hs, hcmp, hf,
              dispFrom_cons_failed, dispFrom_nil,
              countStarted_cons_failed, countStarted_nil,
              countCompleted_cons_failed, countCompleted_nil,
              countFailed_cons_failed, countFailed_nil]
            omega
    · rcases hr : runLoop api mode total rest (i + 1) with ⟨res2, err2, evs2⟩
      simp only [runLoop, hc, hr] at ht
      rcases List.prefix_cons_iff.mp ht with rfl | ⟨t', rfl, ht'⟩
      · simp [dispFrom_nil, countStarted_nil, countCompleted_nil, countFailed_nil]
      · rcases prefix_append_cases t' _ _ ht' with hcalls | ⟨t2, rfl, ht2⟩
        · have hall : ∀ e ∈ t', ∃ j c, e = Ev.call j c :=
            fun e he => hmapcalls e (hcalls.subset he)
          obtain ⟨hd, hs, hcmp, hf⟩ := counts_of_calls_only t' hall (i + 1)
          rw [dispFrom_cons_report, countStarted_cons_report_succ,
            countCompleted_cons_report, countFailed_cons_report,
            hd, hs, hcmp, hf]
          omega
        · obtain ⟨hd, hs, hcmp, hf⟩ := counts_of_calls_only _ hmapcalls (i + 1)
          rcases List.prefix_cons_iff.mp ht2 with rfl | ⟨t3, rfl, ht3⟩
          · rw [dispFrom_cons_report, countStarted_cons_report_succ,
              countCompleted_cons_report, countFailed_cons_report,
              List.append_nil, hd, hs, hcmp, hf]
            omega
          · have ihr := ih (i + 1) t3 (by rw [hr]; exact ht3)
            rw [dispFrom_cons_report, countStarted_cons_report_succ,
              countCompleted_cons_report, countFailed_cons_report,
              dispFrom_append, countStarted_append, countCompleted_append,
              countFailed_append, hd, hs, hcmp, hf,
              dispFrom_cons_done, countStarted_cons_done,
              countCompleted_cons_done, countFailed_cons_done]
            obtain ⟨ih1, ih2, ih3⟩ := ihr
            omega

/-- C5 (amended): at every point of a `handleGenerate` run, the progress value
shown to the UI equals the number of generations *started* (the loop reports
`i + 1` before awaiting prompt `i`), and that number exceeds the number of
generations that have returned (completed or failed) by exactly one while a
call is in flight, matching it again once the call returns. -/
theorem handleGenerate_progress_counts_started (api : ImgApi) (idStr : String)
    (ts : Nat) (s : GenState) (t : List Ev)
    (ht : t <+: (handleGenerate api idStr ts s).2) :
    displayedCurrent t = countStarted t ∧
    countCompleted t + countFailed t ≤ countStarted t ∧
    countStarted t ≤ countCompleted t + countFailed t + 1 := by
  by_cases hguard : (jsTrim s.prompt = "" || s.isLoading) = true
  · simp only [handleGenerate, if_pos hguard] at ht
    rw [List.prefix_nil] at ht
    subst ht
    exact ⟨rfl, le_refl _, by simp [countStarted_nil, countCompleted_nil, countFailed_nil]⟩
  · have hev : (handleGenerate api idStr ts s).2 =
        Ev.report 0 (promptsToGenerate s.prompt s.numberOfImages).length ::
          (runLoop api s.generationMode
            (promptsToGenerate s.prompt s.numberOfImages).length
            (promptsToGenerate s.prompt s.numberOfImages) 0).2.2 := by
      rcases hcase : (runLoop api s.generationMode
          (promptsToGenerate s.prompt s.numberOfImages).length
          (promptsToGenerate s.prompt s.numberOfImages) 0).2.1 with _ | e0
      · simp only [handleGenerate, if_neg hguard, hcase]
      · simp only [handleGenerate, if_neg hguard, hcase]
    rw [hev] at ht
    rcases List.prefix_cons_iff.mp ht with rfl | ⟨t', rfl, ht'⟩
    · exact ⟨rfl, le_refl _, by simp [countStarted_nil, countCompleted_nil, countFailed_nil]⟩
    · have hinv := runLoop_progress_invariant api s.generationMode
        (promptsToGenerate s.prompt s.numberOfImages).length
        (promptsToGenerate s.prompt s.numberOfImages) 0 t' ht'
      have hdc : displayedCurrent
          (Ev.report 0 (promptsToGenerate s.prompt s.numberOfImages).length :: t') =
          dispFrom 0 t' := rfl
      rw [hdc, countStarted_cons_report_zero, countCompleted_cons_report,
        countFailed_cons_report]
      obtain ⟨h1, h2, h3⟩ := hinv
      refine ⟨by omega, h2, h3⟩

theorem handleGenerate_progress_counts_started_witness :
    displayedCurrent [Ev.report 0 1] = countStarted [Ev.report 0 1] ∧
    countCompleted [Ev.report 0 1] + countFailed [Ev.report 0 1] ≤
      countStarted [Ev.report 0 1] ∧
    countStarted [Ev.report 0 1] ≤
      countCompleted [Ev.report 0 1] + countFailed [Ev.report 0 1] + 1 :=
  handleGenerate_progress_counts_started apiAllOk "id" 0 idleState
    [Ev.report 0 1]
    ⟨[Ev.report 1 1, Ev.call 0 (ApiCall.genOriginal (originalImagePrompt "x")),
      Ev.done 0], by decide⟩

/-- C5 as literally stated is false: right after the loop's first progress
report the UI shows `current = 1` while zero generations have completed (the
call for prompt 0 is still in flight). -/
theorem handleGenerate_progress_not_completed_counterexample :
    [Ev.report 0 1, Ev.report 1 1] <+: (handleGenerate apiAllOk "id" 0 idleState).2 ∧
    ¬ displayedCurrent [Ev.report 0 1, Ev.report 1 1] =
        countCompleted [Ev.report 0 1, Ev.report 1 1] := by
  constructor
  · exact ⟨[Ev.call 0 (ApiCall.genOriginal (originalImagePrompt "x")), Ev.done 0],
      by decide⟩
  · decide
